import Mathlib

/-!
Shallow embedding of the note-taking client in `src/components/Notes.tsx`.

The component keeps four pieces of state (`apiData`, `isLoading`, `note`,
`message`) and mutates them in four async handlers (`fetchData`,
`createNote`, `updateNote`, `deleteNote`) plus a reset effect driven by a
timer.  Each handler is embedded as a pure state transformer; the outcome
of the network round-trip (`fetch` + `response.json()`) is passed in as an
explicit oracle argument.  JSON values that land in the note list are
modelled by `JVal`, which is either a parsed note object or JSON `null`
(the falsy case relevant to `createNote`).  JavaScript truthiness of
strings (empty string is falsy) and of parsed bodies (null is falsy) is
modelled explicitly.
-/

/-- The `Note` record of `Notes.tsx`: `id` (number), `title`, `content`. -/
structure Note where
  id : Int
  title : String
  content : String
deriving DecidableEq, Repr

/-- A parsed JSON value stored in the note list: a note object or JSON
`null`.  `response.json()` can resolve to `null`, and `createNote`
appends the parsed value to the list without inspecting it. -/
inductive JVal where
  | jnull : JVal
  | jnote : Note → JVal
deriving DecidableEq, Repr

/-- Whether a `JVal` is a note object. -/
def JVal.isNote : JVal → Bool
  | .jnull => false
  | .jnote _ => true

/-- JavaScript truthiness of a parsed body: objects are truthy, `null` is
falsy. -/
def JVal.truthy : JVal → Bool := JVal.isNote

/-- The `id` property of a parsed value; `none` models the TypeError that
accessing `.id` on `null` raises. -/
def JVal.jid : JVal → Option Int
  | .jnull => none
  | .jnote n => some n.id

/-- The component state of `Notes`: `apiData` (the cached list, `null`
before the first successful fetch), `isLoading`, `note` (the draft being
edited, `null` when none), and `message` (the transient status). -/
structure NotesState where
  apiData : Option (List JVal)
  isLoading : Bool
  note : Option Note
  message : Option String
deriving DecidableEq, Repr

/-- `fetchData` (lines 35-46): sets `isLoading` for the duration, replaces
`apiData` wholesale on success; on a network or parse error only logs, so
`apiData` keeps its previous value; the `finally` block always clears
`isLoading`.  `res = some data` is a resolved and parsed response,
`res = none` a rejected fetch or failed parse. -/
def fetchData (s : NotesState) (res : Option (List JVal)) : NotesState :=
  match res with
  | some data => { s with isLoading := false, apiData := some data }
  | none => { s with isLoading := false }

/-- The guard of `createNote` (line 69): `!note || !note.title ||
!note.content`, i.e. no draft, or empty title, or empty content (empty
strings are falsy). -/
def draftInvalid : Option Note → Bool
  | none => true
  | some n => n.title == "" || n.content == ""

/-- Outcome of the POST in `createNote`: the fetch or parse threw, or the
body parsed to some `JVal`. -/
inductive CreateRes where
  | netError : CreateRes
  | ok : JVal → CreateRes
deriving DecidableEq, Repr

/-- `createNote` (lines 67-92).  Returns the new state together with the
number of network calls performed.  Guard failure sets the required-fields
error message and returns with no call.  Otherwise the POST is issued: on
a thrown error the failure message is set and the list is untouched; on a
parsed body `data` the message is chosen by `data`'s truthiness, the draft
is reset to the sentinel, and `data` is appended to `apiData or []`. -/
def createNote (s : NotesState) (res : CreateRes) : NotesState × Nat :=
  if draftInvalid s.note then
    ({ s with message := some "Error: Note title and content are required." }, 0)
  else
    match res with
    | .netError =>
        ({ s with message := some "Error: Failed to create note." }, 1)
    | .ok data =>
        ({ s with
            message := some (if data.truthy then "Note created successfully!"
              else "Error: Failed to create note.")
            note := some { id := 0, title := "", content := "" }
            apiData := some ((s.apiData.getD []) ++ [data]) }, 1)

/-- Outcome of the PUT/DELETE round-trip: the fetch or parse threw, or the
body parsed and its `result` field was read (`none` models an absent
field, i.e. `undefined`). -/
inductive MutRes where
  | netError : MutRes
  | ok : Option String → MutRes
deriving DecidableEq, Repr

/-- The object spread `\x7b ...a, ...b \x7d`: every key of `a` is
overwritten by the corresponding key of `b`, so with three fields on each
side the result carries `b`'s values. -/
def spreadMerge (_a b : Note) : Note :=
  { id := b.id, title := b.title, content := b.content }

/-- The `map` callback of `updateNote` (line 109):
`note => (note.id === id ? \x7b ...note, ...note \x7d : note)`.  The inner
`note` shadows the draft, so the merge is of an entry with itself.  On a
`null` entry the real callback throws when reading `.id`; that case is
guarded at the call site. -/
def updCallback (id : Int) : JVal → JVal
  | .jnull => .jnull
  | .jnote n => if n.id = id then .jnote (spreadMerge n n) else .jnote n

/-- `updateNote` (lines 97-116).  On a thrown fetch/parse the failure
message is set and the list is untouched.  On a parsed body the message is
set to `data.result`, then `apiData?.map(callback) || []` is computed: a
`null` list maps to `[]`; a list whose entries are all notes is mapped
pointwise; a list containing a `null` entry makes the callback throw, the
catch block overwrites the message and `setApiData` is never reached. -/
def updateNote (s : NotesState) (id : Int) (res : MutRes) : NotesState :=
  match res with
  | .netError => { s with message := some "Error: Failed to update note." }
  | .ok result =>
    match s.apiData with
    | none => { s with message := result, apiData := some [] }
    | some l =>
      if l.all JVal.isNote then
        { s with message := result, apiData := some (l.map (updCallback id)) }
      else
        { s with message := some "Error: Failed to update note." }

/-- The `filter` callback of `deleteNote` (line 128):
`note => note.id !== id`.  On a `null` entry the real callback throws;
that case is guarded at the call site. -/
def delCallback (id : Int) : JVal → Bool
  | .jnull => true
  | .jnote n => n.id != id

/-- `deleteNote` (lines 121-133).  Same shape as `updateNote`, with
`apiData?.filter(callback) || []` as the list update. -/
def deleteNote (s : NotesState) (id : Int) (res : MutRes) : NotesState :=
  match res with
  | .netError => { s with message := some "Error: Failed to delete note." }
  | .ok result =>
    match s.apiData with
    | none => { s with message := result, apiData := some [] }
    | some l =>
      if l.all JVal.isNote then
        { s with message := result, apiData := some (l.filter (delCallback id)) }
      else
        { s with message := some "Error: Failed to delete note." }

/-!
The reset effect (lines 52-62).  The effect has dependency array
`[message, note]`: it runs after every render in which either changed,
and when `message` is truthy it schedules a 3-second timer that clears
`message` and `note` and refetches.  Timers are never cancelled, so
several can be pending at once.  `EffectState` tracks the two
dependencies, the number of pending timers, and the number of refetches
performed by fired timers. -/
structure EffectState where
  message : Option String
  note : Option Note
  pendingTimers : Nat
  refetchCount : Nat
deriving DecidableEq, Repr

/-- JavaScript truthiness of the `message` state: `null` and the empty
string are falsy. -/
def msgTruthy : Option String → Bool
  | none => false
  | some s => s != ""

/-- An observable event of the reset effect: a render carrying the new
values of the two dependencies, or the firing of one pending timer. -/
inductive EffectEvent where
  | render : Option String → Option Note → EffectEvent
  | fire : EffectEvent
deriving DecidableEq, Repr

/-- One step of the reset effect.  A render whose dependencies are
unchanged does nothing; one that changes them updates the state and, when
the new `message` is truthy, schedules one more timer.  A firing timer
(line 54-60) clears `message` and `note` and performs one refetch; the
render it causes has a falsy `message`, so no new timer is scheduled. -/
def effectStep (s : EffectState) (e : EffectEvent) : EffectState :=
  match e with
  | .render m n =>
    if m = s.message ∧ n = s.note then s
    else
      { s with
        message := m
        note := n
        pendingTimers := s.pendingTimers + (if msgTruthy m then 1 else 0) }
  | .fire =>
    match s.pendingTimers with
    | 0 => s
    | k + 1 =>
      { message := none
        note := none
        pendingTimers := k
        refetchCount := s.refetchCount + 1 }

/-- Run a sequence of reset-effect events from a state. -/
def runEffects (s : EffectState) (es : List EffectEvent) : EffectState :=
  es.foldl effectStep s

/-! ## Claims -/

/-- C1: for every draft with an empty title or an empty content, `createNote`
performs zero network calls, sets the status to
"Error: Note title and content are required.", and leaves the local note
list unchanged. -/
theorem createNote_empty_draft_no_network (s : NotesState) (d : Note)
    (res : CreateRes) (hd : s.note = some d)
    (hempty : d.title = "" ∨ d.content = "") :
    (createNote s res).2 = 0 ∧
    (createNote s res).1.message =
      some "Error: Note title and content are required." ∧
    (createNote s res).1.apiData = s.apiData := by
  have hinv : draftInvalid s.note = true := by
    rw [hd]
    rcases hempty with h | h <;> simp [draftInvalid, h]
  refine ⟨?_, ?_, ?_⟩ <;> simp [createNote, hinv]

/-- Witness for C1 at the draft with empty title and content "x". -/
theorem createNote_empty_draft_no_network_witness :
    (createNote
      { apiData := some [JVal.jnote { id := 1, title := "t", content := "c" }]
        isLoading := false
        note := some { id := 0, title := "", content := "x" }
        message := none } CreateRes.netError).2 = 0 ∧
    (createNote
      { apiData := some [JVal.jnote { id := 1, title := "t", content := "c" }]
        isLoading := false
        note := some { id := 0, title := "", content := "x" }
        message := none } CreateRes.netError).1.message =
      some "Error: Note title and content are required." ∧
    (createNote
      { apiData := some [JVal.jnote { id := 1, title := "t", content := "c" }]
        isLoading := false
        note := some { id := 0, title := "", content := "x" }
        message := none } CreateRes.netError).1.apiData =
      some [JVal.jnote { id := 1, title := "t", content := "c" }] :=
  createNote_empty_draft_no_network _ _ _ rfl (Or.inl rfl)

/-- C5: a failing `fetchData` run leaves `apiData` at its previous value,
and every `fetchData` run, success or failure, ends with the loading flag
cleared. -/
theorem fetchData_failure_preserves_list (s : NotesState) :
    (fetchData s none).apiData = s.apiData ∧
    ∀ res : Option (List JVal), (fetchData s res).isLoading = false := by
  refine ⟨rfl, ?_⟩
  intro res
  cases res <;> rfl

/-- C7: running `fetchData` twice against an unchanged server response
leaves the local list after the second run identical to the list after
the first run. -/
theorem fetchData_idempotent (s : NotesState) (res : Option (List JVal)) :
    (fetchData (fetchData s res) res).apiData = (fetchData s res).apiData := by
  cases res <;> rfl

/-- C10: when the local list has never been loaded (`apiData` is null), a
successful `updateNote` or `deleteNote` sets it to the empty list, for
every id. -/
theorem mutate_unloaded_list_becomes_empty (s : NotesState) (id : Int)
    (r : Option String) (h : s.apiData = none) :
    (updateNote s id (.ok r)).apiData = some [] ∧
    (deleteNote s id (.ok r)).apiData = some [] := by
  constructor <;> simp [updateNote, deleteNote, h]

/-- Witness for C10 at the initial state and id 5. -/
theorem mutate_unloaded_list_becomes_empty_witness :
    (updateNote
      { apiData := none, isLoading := false, note := none, message := none }
      5 (.ok (some "Note updated"))).apiData = some [] ∧
    (deleteNote
      { apiData := none, isLoading := false, note := none, message := none }
      5 (.ok (some "Note deleted"))).apiData = some [] :=
  mutate_unloaded_list_becomes_empty _ 5 (some "Note updated") rfl

/-- A draft with non-empty title and content passes the `createNote`
guard. -/
theorem draftInvalid_false (d : Note) (ht : d.title ≠ "")
    (hc : d.content ≠ "") : draftInvalid (some d) = false := by
  simp [draftInvalid, ht, hc]

/-- C2: a successful create (POST resolves, body parses to the
server-returned note) appends that note exactly once at the end of the
local list with all previous entries unchanged, resets the draft to the
sentinel, and sets the success status. -/
theorem createNote_success_appends (s : NotesState) (d srv : Note)
    (hd : s.note = some d) (ht : d.title ≠ "") (hc : d.content ≠ "") :
    (createNote s (.ok (.jnote srv))).1.apiData
      = some ((s.apiData.getD []) ++ [JVal.jnote srv]) ∧
    ((createNote s (.ok (.jnote srv))).1.apiData.getD []).count
        (JVal.jnote srv)
      = (s.apiData.getD []).count (JVal.jnote srv) + 1 ∧
    (createNote s (.ok (.jnote srv))).1.note
      = some { id := 0, title := "", content := "" } ∧
    (createNote s (.ok (.jnote srv))).1.message
      = some "Note created successfully!" := by
  have hinv : draftInvalid s.note = false := by
    rw [hd]; exact draftInvalid_false d ht hc
  refine ⟨?_, ?_, ?_, ?_⟩ <;>
    simp [createNote, hinv, JVal.truthy, JVal.isNote]

/-- Witness for C2: the spec scenario, draft `Milk`/`2%`, server returns
id 7. -/
theorem createNote_success_appends_witness :
    (createNote
      { apiData := some [JVal.jnote { id := 3, title := "t", content := "c" }]
        isLoading := false
        note := some { id := 0, title := "Milk", content := "2%" }
        message := none }
      (.ok (.jnote { id := 7, title := "Milk", content := "2%" }))).1.apiData
      = some [JVal.jnote { id := 3, title := "t", content := "c" },
              JVal.jnote { id := 7, title := "Milk", content := "2%" }] ∧
    ((createNote
      { apiData := some [JVal.jnote { id := 3, title := "t", content := "c" }]
        isLoading := false
        note := some { id := 0, title := "Milk", content := "2%" }
        message := none }
      (.ok (.jnote { id := 7, title := "Milk", content := "2%" }))).1.apiData.getD
        []).count (JVal.jnote { id := 7, title := "Milk", content := "2%" })
      = ((some [JVal.jnote { id := 3, title := "t", content := "c" }] :
          Option (List JVal)).getD []).count
          (JVal.jnote { id := 7, title := "Milk", content := "2%" }) + 1 ∧
    (createNote
      { apiData := some [JVal.jnote { id := 3, title := "t", content := "c" }]
        isLoading := false
        note := some { id := 0, title := "Milk", content := "2%" }
        message := none }
      (.ok (.jnote { id := 7, title := "Milk", content := "2%" }))).1.note
      = some { id := 0, title := "", content := "" } ∧
    (createNote
      { apiData := some [JVal.jnote { id := 3, title := "t", content := "c" }]
        isLoading := false
        note := some { id := 0, title := "Milk", content := "2%" }
        message := none }
      (.ok (.jnote { id := 7, title := "Milk", content := "2%" }))).1.message
      = some "Note created successfully!" :=
  createNote_success_appends _ _ _ rfl (by decide) (by decide)

/-- C9: when the POST resolves but the body parses to a falsy value
(JSON null), `createNote` still resets the draft and appends the parsed
null to the local list, while setting the failure status. -/
theorem createNote_falsy_body_still_appends (s : NotesState) (d : Note)
    (hd : s.note = some d) (ht : d.title ≠ "") (hc : d.content ≠ "") :
    (createNote s (.ok .jnull)).1.apiData
      = some ((s.apiData.getD []) ++ [JVal.jnull]) ∧
    (createNote s (.ok .jnull)).1.note
      = some { id := 0, title := "", content := "" } ∧
    (createNote s (.ok .jnull)).1.message
      = some "Error: Failed to create note." := by
  have hinv : draftInvalid s.note = false := by
    rw [hd]; exact draftInvalid_false d ht hc
  refine ⟨?_, ?_, ?_⟩ <;>
    simp [createNote, hinv, JVal.truthy, JVal.isNote]

/-- Witness for C9 at a one-entry list and a null response body. -/
theorem createNote_falsy_body_still_appends_witness :
    (createNote
      { apiData := some [JVal.jnote { id := 1, title := "a", content := "b" }]
        isLoading := false
        note := some { id := 0, title := "x", content := "y" }
        message := none }
      (.ok .jnull)).1.apiData
      = some [JVal.jnote { id := 1, title := "a", content := "b" },
              JVal.jnull] ∧
    (createNote
      { apiData := some [JVal.jnote { id := 1, title := "a", content := "b" }]
        isLoading := false
        note := some { id := 0, title := "x", content := "y" }
        message := none }
      (.ok .jnull)).1.note = some { id := 0, title := "", content := "" } ∧
    (createNote
      { apiData := some [JVal.jnote { id := 1, title := "a", content := "b" }]
        isLoading := false
        note := some { id := 0, title := "x", content := "y" }
        message := none }
      (.ok .jnull)).1.message = some "Error: Failed to create note." :=
  createNote_falsy_body_still_appends _ _ rfl (by decide) (by decide)

/-- The update callback is the identity: merging an entry with itself is a
no-op. -/
theorem updCallback_eq_self (id : Int) (v : JVal) : updCallback id v = v := by
  cases v with
  | jnull => rfl
  | jnote n =>
    have hm : spreadMerge n n = n := rfl
    by_cases hn : n.id = id <;> simp [updCallback, hn, hm]

/-- Mapping the update callback over any list leaves it unchanged. -/
theorem map_updCallback_eq (id : Int) (l : List JVal) :
    l.map (updCallback id) = l := by
  induction l with
  | nil => rfl
  | cons a t ih => simp [updCallback_eq_self, ih]

/-- C4: a successful update of an id present in the loaded local list
leaves every entry unchanged; in particular the length is unchanged and
an entry with that id still exists. -/
theorem updateNote_success_frame (s : NotesState) (l : List JVal)
    (id : Int) (r : Option String) (hl : s.apiData = some l)
    (hid : l.any (fun v => v.jid == some id) = true) :
    (updateNote s id (.ok r)).apiData = some l ∧
    ∃ l', (updateNote s id (.ok r)).apiData = some l' ∧
      l'.length = l.length ∧
      l'.any (fun v => v.jid == some id) = true := by
  have hsame : (updateNote s id (.ok r)).apiData = some l := by
    by_cases hall : l.all JVal.isNote = true
    · simp [updateNote, hl, hall, map_updCallback_eq]
    · simp [updateNote, hl, hall]
  exact ⟨hsame, l, hsame, rfl, hid⟩

/-- Witness for C4 at a two-entry list and id 2. -/
theorem updateNote_success_frame_witness :
    (updateNote
      { apiData := some [JVal.jnote { id := 1, title := "a", content := "b" },
                         JVal.jnote { id := 2, title := "c", content := "d" }]
        isLoading := false, note := none, message := none }
      2 (.ok (some "Note updated"))).apiData
      = some [JVal.jnote { id := 1, title := "a", content := "b" },
              JVal.jnote { id := 2, title := "c", content := "d" }] ∧
    ∃ l', (updateNote
      { apiData := some [JVal.jnote { id := 1, title := "a", content := "b" },
                         JVal.jnote { id := 2, title := "c", content := "d" }]
        isLoading := false, note := none, message := none }
      2 (.ok (some "Note updated"))).apiData = some l' ∧
      l'.length = 2 ∧
      l'.any (fun v => v.jid == some 2) = true :=
  updateNote_success_frame _ _ 2 (some "Note updated") rfl (by decide)

/-- Deleting filters out every entry carrying the target id: the filtered
list has no such entry, and its length drops by the number of entries
that carried the id. -/
theorem delete_filter_count_length (id : Int) (l : List JVal)
    (h : l.all JVal.isNote = true) :
    (l.filter (delCallback id)).countP (fun v => v.jid == some id) = 0 ∧
    (l.filter (delCallback id)).length
      + l.countP (fun v => v.jid == some id) = l.length := by
  induction l with
  | nil => simp
  | cons a t ih =>
    simp only [List.all_cons, Bool.and_eq_true] at h
    obtain ⟨ha, hrest⟩ := h
    obtain ⟨ih1, ih2⟩ := ih hrest
    cases a with
    | jnull => simp [JVal.isNote] at ha
    | jnote n =>
      by_cases hn : n.id = id
      · have hcb : delCallback id (.jnote n) = false := by
          simp [delCallback, hn]
        have hp : ((JVal.jnote n).jid == some id) = true := by
          simp [JVal.jid, hn]
        simp [List.filter_cons, List.countP_cons, hcb, hp, ih1]
        omega
      · have hcb : delCallback id (.jnote n) = true := by
          simp [delCallback, hn]
        have hp : ((JVal.jnote n).jid == some id) = false := by
          simp [JVal.jid, hn]
        simp [List.filter_cons, List.countP_cons, hcb, hp, ih1]
        omega

/-- C3 counterexample: when the deleted id occurs twice in the local
list, a successful delete removes both entries, so the length drops by
two, not by exactly one as the claim states. -/
theorem deleteNote_duplicate_id_counterexample :
    ([JVal.jnote { id := 1, title := "a", content := "b" },
      JVal.jnote { id := 1, title := "c", content := "d" }].countP
        (fun v => v.jid == some 1) = 2) ∧
    (deleteNote
      { apiData := some [JVal.jnote { id := 1, title := "a", content := "b" },
                         JVal.jnote { id := 1, title := "c", content := "d" }]
        isLoading := false, note := none, message := none }
      1 (.ok (some "Note deleted"))).apiData = some [] ∧
    ¬ (([] : List JVal).length
        = [JVal.jnote { id := 1, title := "a", content := "b" },
           JVal.jnote { id := 1, title := "c", content := "d" }].length - 1) := by
  refine ⟨by decide, ?_, by decide⟩
  decide

/-- C3 (amended): for every successful delete of an id present in the
loaded local note list, the resulting list has no entry with that id and
its length drops by the number of entries that carried the id; when the
id occurred exactly once, the length drops by exactly one. -/
theorem deleteNote_success_removes_id (s : NotesState) (l : List JVal)
    (id : Int) (r : Option String) (hl : s.apiData = some l)
    (hnotes : l.all JVal.isNote = true)
    (hpresent : 1 ≤ l.countP (fun v => v.jid == some id)) :
    ∃ l', (deleteNote s id (.ok r)).apiData = some l' ∧
      l'.countP (fun v => v.jid == some id) = 0 ∧
      l'.length + l.countP (fun v => v.jid == some id) = l.length ∧
      (l.countP (fun v => v.jid == some id) = 1 →
        l'.length + 1 = l.length) := by
  obtain ⟨h1, h2⟩ := delete_filter_count_length id l hnotes
  refine ⟨l.filter (delCallback id), ?_, h1, h2, ?_⟩
  · simp [deleteNote, hl, hnotes]
  · intro honce
    omega

/-- Witness for the amended C3 at a three-entry list holding id 1 twice:
deleting id 1 drops the length by two, its multiplicity. -/
theorem deleteNote_success_removes_id_witness :
    ∃ l', (deleteNote
      { apiData := some [JVal.jnote { id := 1, title := "a", content := "b" },
                         JVal.jnote { id := 1, title := "c", content := "d" },
                         JVal.jnote { id := 2, title := "e", content := "f" }]
        isLoading := false, note := none, message := none }
      1 (.ok (some "Note deleted"))).apiData = some l' ∧
      l'.countP (fun v => v.jid == some 1) = 0 ∧
      l'.length
        + [JVal.jnote { id := 1, title := "a", content := "b" },
           JVal.jnote { id := 1, title := "c", content := "d" },
           JVal.jnote { id := 2, title := "e", content := "f" }].countP
            (fun v => v.jid == some 1)
        = [JVal.jnote { id := 1, title := "a", content := "b" },
           JVal.jnote { id := 1, title := "c", content := "d" },
           JVal.jnote { id := 2, title := "e", content := "f" }].length ∧
      ([JVal.jnote { id := 1, title := "a", content := "b" },
        JVal.jnote { id := 1, title := "c", content := "d" },
        JVal.jnote { id := 2, title := "e", content := "f" }].countP
          (fun v => v.jid == some 1) = 1 →
        l'.length + 1
          = [JVal.jnote { id := 1, title := "a", content := "b" },
             JVal.jnote { id := 1, title := "c", content := "d" },
             JVal.jnote { id := 2, title := "e", content := "f" }].length) :=
  deleteNote_success_removes_id _ _ 1 (some "Note deleted") rfl
    (by decide) (by decide)

/-- C8: each client-side list mutation preserves the relative order of
the entries it retains: a successful create appends at the end leaving
the old list a prefix, a successful update maps entries in place leaving
the list unchanged, and a successful delete yields a sublist of the old
list; the client never re-sorts. -/
theorem mutations_preserve_order (s : NotesState) (l : List JVal)
    (d : Note) (v : JVal) (id : Int) (r : Option String)
    (hl : s.apiData = some l) (hd : s.note = some d)
    (ht : d.title ≠ "") (hc : d.content ≠ "") :
    (createNote s (.ok v)).1.apiData = some (l ++ [v]) ∧
    (updateNote s id (.ok r)).apiData = some l ∧
    ∀ l', (deleteNote s id (.ok r)).apiData = some l' → l'.Sublist l := by
  have hinv : draftInvalid s.note = false := by
    rw [hd]; exact draftInvalid_false d ht hc
  refine ⟨?_, ?_, ?_⟩
  · simp [createNote, hinv, hl]
  · by_cases hall : l.all JVal.isNote = true
    · simp [updateNote, hl, hall, map_updCallback_eq]
    · simp [updateNote, hl, hall]
  · intro l' hl'
    by_cases hall : l.all JVal.isNote = true
    · simp [deleteNote, hl, hall] at hl'
      rw [← hl']
      exact List.filter_sublist l
    · simp [deleteNote, hl, hall] at hl'
      rw [← hl']

/-- Witness for C8 at a two-entry list, draft `x`/`y`, appended value of
id 9, and mutation id 1. -/
theorem mutations_preserve_order_witness :
    (createNote
      { apiData := some [JVal.jnote { id := 1, title := "a", content := "b" },
                         JVal.jnote { id := 2, title := "c", content := "d" }]
        isLoading := false
        note := some { id := 0, title := "x", content := "y" }
        message := none }
      (.ok (.jnote { id := 9, title := "n", content := "m" }))).1.apiData
      = some ([JVal.jnote { id := 1, title := "a", content := "b" },
               JVal.jnote { id := 2, title := "c", content := "d" }]
          ++ [JVal.jnote { id := 9, title := "n", content := "m" }]) ∧
    (updateNote
      { apiData := some [JVal.jnote { id := 1, title := "a", content := "b" },
                         JVal.jnote { id := 2, title := "c", content := "d" }]
        isLoading := false
        note := some { id := 0, title := "x", content := "y" }
        message := none }
      1 (.ok (some "Note updated"))).apiData
      = some [JVal.jnote { id := 1, title := "a", content := "b" },
              JVal.jnote { id := 2, title := "c", content := "d" }] ∧
    ∀ l', (deleteNote
      { apiData := some [JVal.jnote { id := 1, title := "a", content := "b" },
                         JVal.jnote { id := 2, title := "c", content := "d" }]
        isLoading := false
        note := some { id := 0, title := "x", content := "y" }
        message := none }
      1 (.ok (some "Note updated"))).apiData = some l' →
      l'.Sublist [JVal.jnote { id := 1, title := "a", content := "b" },
                  JVal.jnote { id := 2, title := "c", content := "d" }] :=
  mutations_preserve_order _ _ _ _ 1 (some "Note updated") rfl rfl
    (by decide) (by decide)

/-- C6 counterexample: one status set followed by a draft edit while the
status is still displayed schedules two uncancelled timers, so two
refetches follow a single status set — not exactly one as the claim
states.  The trace sets the status once (first render), then only the
`note` dependency changes (second render), then both pending timers
fire. -/
theorem reset_effect_duplicate_refetch_counterexample :
    runEffects
      { message := none, note := none, pendingTimers := 0, refetchCount := 0 }
      [.render (some "Note created successfully!") none,
       .render (some "Note created successfully!")
         (some { id := 0, title := "a", content := "" }),
       .fire, .fire]
      = { message := none, note := none, pendingTimers := 0,
          refetchCount := 2 } := by
  decide

/-- C6 (amended): after a status is set to a non-null, non-empty value
with no reset timer pending, exactly one timer is scheduled, and when it
fires exactly one refetch has occurred and the status message and the
draft are both null; exactly one refetch is guaranteed only when no
further change of the message or draft intervenes before the timer fires
— every such change while the status is non-null schedules an
additional timer and refetch. -/
theorem reset_effect_single_refetch (s : EffectState) (m : String)
    (n : Option Note) (hp : s.pendingTimers = 0) (hm : m ≠ "")
    (hch : ¬ (some m = s.message ∧ n = s.note)) :
    (effectStep s (.render (some m) n)).pendingTimers = 1 ∧
    (effectStep (effectStep s (.render (some m) n)) .fire).message = none ∧
    (effectStep (effectStep s (.render (some m) n)) .fire).note = none ∧
    (effectStep (effectStep s (.render (some m) n)) .fire).refetchCount
      = s.refetchCount + 1 ∧
    (effectStep (effectStep s (.render (some m) n)) .fire).pendingTimers
      = 0 := by
  have hmt : msgTruthy (some m) = true := by simp [msgTruthy, hm]
  simp [effectStep, hch, hmt, hp]

/-- Witness for the amended C6 from the idle state, setting the delete
success status. -/
theorem reset_effect_single_refetch_witness :
    (effectStep
      { message := none, note := none, pendingTimers := 0, refetchCount := 0 }
      (.render (some "Note deleted") none)).pendingTimers = 1 ∧
    (effectStep (effectStep
      { message := none, note := none, pendingTimers := 0, refetchCount := 0 }
      (.render (some "Note deleted") none)) .fire).message = none ∧
    (effectStep (effectStep
      { message := none, note := none, pendingTimers := 0, refetchCount := 0 }
      (.render (some "Note deleted") none)) .fire).note = none ∧
    (effectStep (effectStep
      { message := none, note := none, pendingTimers := 0, refetchCount := 0 }
      (.render (some "Note deleted") none)) .fire).refetchCount = 1 ∧
    (effectStep (effectStep
      { message := none, note := none, pendingTimers := 0, refetchCount := 0 }
      (.render (some "Note deleted") none)) .fire).pendingTimers = 0 :=
  reset_effect_single_refetch _ "Note deleted" none rfl (by decide)
    (by simp)
